import Mathlib

/-!
Verification of the configuration-resolution logic of the `ursa_driver`
ROS node (`src/ursa_node.cpp`).  The node reads parameters from a ROS
parameter server, validates them against two fixed lookup tables, and then
drives the `ursa::Interface` device object.  We embed:

* the module-level globals (lines 34-52) as a `Globals` record, with the
  C++ zero-initialisation of static storage made explicit;
* the parameter server as a `NodeHandle` record of optional typed values,
  with `nh.param` = `Option.getD` and `nh.getParam` = a `match` on the
  option;
* `get_params` (lines 171-234) as a state-passing function returning the
  C++ `int` result together with the updated globals and the list of
  `ROS_ERROR` messages emitted;
* the startup portion of `main` (lines 68-121) as a function producing the
  sequence of calls made on the `ursa::Interface` object and the early
  exit code, if any.

Doubles (`gain`, `shaping_time`) are modelled as `Rat`: the only
operations the node performs on them are assignment and exact equality
comparison in `std::map::find`, for which `Rat` is faithful (all table
keys are exactly representable).
-/

namespace ursa

/-- Modelled from the spec: the internal enumerated device codes for the
shaping time, declared in `ursa_driver/ursa_driver.h` which is not part of
this source unit; the enumerators are the ones `ursa_node.cpp` references. -/
inductive shaping_time where
  | TIME0_25uS
  | TIME0_5uS
  | TIME1uS
  | TIME2uS
  | TIME4uS
  | TIME6uS
  | TIME8uS
  | TIME10uS
deriving DecidableEq, Repr

/-- Modelled from the spec: the internal enumerated device codes for the
input/polarity selection, declared in `ursa_driver/ursa_driver.h` which is
not part of this source unit; the enumerators are the ones
`ursa_node.cpp` references. -/
inductive inputs where
  | INPUT1NEG
  | INPUT1POS
  | INPUT2NEG
  | INPUTXPOS
deriving DecidableEq, Repr

end ursa

/-- The ROS parameter server as seen through the node's private namespace:
each key the node reads, as an optional value of the type the node reads
it at.  `none` means the key is absent on the server. -/
structure NodeHandle where
  load_previous_settings : Option Bool
  high_voltage : Option Int
  gain : Option Rat
  threshold : Option Int
  shaping_time : Option Rat
  input_and_polarity : Option String
  ramping_time : Option Int
  port : Option String
  baud : Option Int
  use_GM_mode : Option Bool
  imeadiate_mode : Option Bool
  detector_frame : Option String
deriving DecidableEq, Repr

/-- The module-level globals of `ursa_node.cpp` (lines 34-52) that
`get_params` assigns and `main` consumes.  `real_shaping_time` and
`real_input` are enums of the external driver header; their
zero-initialised (never assigned) state is modelled as `none`. -/
structure Globals where
  baud : Int
  port : String
  detector_frame : String
  HV : Int
  gain : Rat
  threshold : Int
  shaping_time : Rat
  real_shaping_time : Option ursa.shaping_time
  input_polarity : String
  real_input : Option ursa.inputs
  ramp : Int
  load_prev : Bool
  GMmode : Bool
  imeadiate : Bool
deriving DecidableEq, Repr

/-- The values the globals hold when `main` starts: the explicit
initialisers of lines 34-45 and C++ zero-initialisation of static storage
for the rest. -/
def initGlobals : Globals :=
  { baud := 0
    port := ""
    detector_frame := ""
    HV := 0
    gain := 0
    threshold := 0
    shaping_time := 1
    real_shaping_time := none
    input_polarity := ""
    real_input := none
    ramp := 6
    load_prev := false
    GMmode := false
    imeadiate := false }

/-- `std::map::find` followed by `operator[]` on the maps built by
`fill_maps`, modelled as lookup in an association list. -/
def map_find {K V : Type} [DecidableEq K] (m : List (K × V)) (k : K) : Option V :=
  match m with
  | [] => none
  | (a, b) :: rest => if k = a then some b else map_find rest k

/-- The value of the C++ double literal `0.25` as an explicitly reduced
rational (the scientific-notation Lean literal `0.25` does not reduce in
the kernel; `ratQuarter_eq` proves the two equal). -/
def ratQuarter : Rat := ⟨1, 4, by decide, by decide⟩

/-- The value of the C++ double literal `0.5` as an explicitly reduced
rational; `ratHalf_eq` proves it equal to the literal `0.5`. -/
def ratHalf : Rat := ⟨1, 2, by decide, by decide⟩

/-- The contents of `shape_map` after `fill_maps` (lines 237-244). -/
def shape_map : List (Rat × ursa.shaping_time) :=
  [(ratQuarter, ursa.shaping_time.TIME0_25uS),
   (ratHalf, ursa.shaping_time.TIME0_5uS),
   (1, ursa.shaping_time.TIME1uS),
   (2, ursa.shaping_time.TIME2uS),
   (4, ursa.shaping_time.TIME4uS),
   (6, ursa.shaping_time.TIME6uS),
   (8, ursa.shaping_time.TIME8uS),
   (10, ursa.shaping_time.TIME10uS)]

/-- The contents of `input_map` after `fill_maps` (lines 246-250).  Note
`input2_positive` is assigned `ursa::INPUT1POS` in the source. -/
def input_map : List (String × ursa.inputs) :=
  [("input1_negative", ursa.inputs.INPUT1NEG),
   ("input1_positive", ursa.inputs.INPUT1POS),
   ("input2_negative", ursa.inputs.INPUT2NEG),
   ("input2_positive", ursa.inputs.INPUT1POS),
   ("shaped_input", ursa.inputs.INPUTXPOS)]

/-- `ROS_ERROR` text of line 178. -/
def hvMsg : String := "High voltage must be set."

/-- `ROS_ERROR` text of line 183. -/
def gainMsg : String := "Gain must be set."

/-- `ROS_ERROR` text of line 188. -/
def thresholdMsg : String := "Threshold must be set."

/-- `ROS_ERROR` text of line 193. -/
def shapingMsg : String := "Shaping time must be set."

/-- `ROS_ERROR` text of line 198 (typo as in source). -/
def inputMsg : String := "Input and Polartity must be set."

/-- `ROS_ERROR` text of line 203. -/
def rampMsg : String := "Ramping time must be set."

/-- `ROS_ERROR` text of line 211. -/
def shapingInvalidMsg : String :=
  "Shaping time must be valid. Input as double in microseconds."

/-- `ROS_ERROR` text of lines 217-219 (adjacent C++ string literals
concatenated, typo as in source). -/
def inputInvalidMsg : String :=
  "Input and polarity must be valid. Input as string in the format \"intput1_negative\" if using a pre-shaped positive input \"shaped_input\"."

/-- Result of a call to `get_params`: the C++ `int` return value, the
globals after the call, and the `ROS_ERROR` messages logged during it. -/
structure GetParamsResult where
  ret : Int
  globals : Globals
  logs : List String
deriving DecidableEq, Repr

/-- The tail of `get_params` (lines 227-233): `nh.param` with defaults for
`port`, `baud`, `use_GM_mode`, `imeadiate_mode`, `detector_frame`, then
`return (1)`. -/
def set_common_params (g : Globals) (nh : NodeHandle) : GetParamsResult :=
  ⟨1,
   { g with
     port := nh.port.getD "/dev/ttyUSB0"
     baud := nh.baud.getD 115200
     GMmode := nh.use_GM_mode.getD false
     imeadiate := nh.imeadiate_mode.getD false
     detector_frame := nh.detector_frame.getD "rad_link" },
   []⟩

/-- `get_params` (lines 171-234).  `nh.param("load_previous_settings",
load_prev, false)` is `Option.getD`; each `nh.getParam` is a `match` that
early-returns `-1` with the corresponding `ROS_ERROR` on `none`; the two
`std::map` membership checks and the final `operator[]` reads are the
`map_find` matches. -/
def get_params (g0 : Globals) (nh : NodeHandle) : GetParamsResult :=
  let g := { g0 with load_prev := nh.load_previous_settings.getD false }
  if !g.load_prev then
    match nh.high_voltage with
    | none => ⟨-1, g, [hvMsg]⟩
    | some hv =>
      let g := { g with HV := hv }
      match nh.gain with
      | none => ⟨-1, g, [gainMsg]⟩
      | some gv =>
        let g := { g with gain := gv }
        match nh.threshold with
        | none => ⟨-1, g, [thresholdMsg]⟩
        | some th =>
          let g := { g with threshold := th }
          match nh.shaping_time with
          | none => ⟨-1, g, [shapingMsg]⟩
          | some st =>
            let g := { g with shaping_time := st }
            match nh.input_and_polarity with
            | none => ⟨-1, g, [inputMsg]⟩
            | some ip =>
              let g := { g with input_polarity := ip }
              match nh.ramping_time with
              | none => ⟨-1, g, [rampMsg]⟩
              | some rp =>
                let g := { g with ramp := rp }
                match map_find shape_map g.shaping_time with
                | none => ⟨-1, g, [shapingInvalidMsg]⟩
                | some rst =>
                  match map_find input_map g.input_polarity with
                  | none => ⟨-1, g, [inputInvalidMsg]⟩
                  | some ri =>
                    let g := { g with
                               real_shaping_time := some rst
                               real_input := some ri }
                    set_common_params g nh
  else
    set_common_params g nh

/-- A call made on the `ursa::Interface` object by `main`, including its
construction.  `setShapingTime`/`setInput` carry the `Option` state of the
corresponding global: `none` is the never-assigned zero-initialised
enum value. -/
inductive DeviceCall where
  | mkInterface (port : String) (baud : Int)
  | connect
  | loadPrevSettings
  | setGain (g : Rat)
  | setThresholdOffset (t : Int)
  | setShapingTime (s : Option ursa.shaping_time)
  | setInput (i : Option ursa.inputs)
  | setRamp (r : Int)
  | setVoltage (v : Int)
  | startGM
  | startAcquire
deriving DecidableEq, Repr

/-- Outcome of the startup portion of `main`: the device calls made, and
`some code` if `main` returned before reaching `ros::spin()` (`none`
means it reached the spin loop). -/
structure MainResult where
  calls : List DeviceCall
  exitCode : Option Int
deriving DecidableEq, Repr

/-- Lines 109-116 of `main`: the immediate-start block. -/
def autostart_calls (g : Globals) : List DeviceCall :=
  if g.imeadiate then
    [if g.GMmode then DeviceCall.startGM else DeviceCall.startAcquire]
  else []

/-- Lines 95-107 of `main`: restore previous settings, or apply the six
explicit settings in source order. -/
def settings_calls (g : Globals) : List DeviceCall :=
  if g.load_prev then [DeviceCall.loadPrevSettings]
  else
    [DeviceCall.setGain g.gain,
     DeviceCall.setThresholdOffset g.threshold,
     DeviceCall.setShapingTime g.real_shaping_time,
     DeviceCall.setInput g.real_input,
     DeviceCall.setRamp g.ramp,
     DeviceCall.setVoltage g.HV]

/-- The startup portion of `main` (lines 68-116), parameterised by
whether `connect()` establishes the connection.  The guard
`if (!get_params(nh))` is a C `!` on an `int`: it returns `-1` exactly
when `get_params` returned `0`. -/
def main_run (nh : NodeHandle) (connect_ok : Bool) : MainResult :=
  let r := get_params initGlobals nh
  if r.ret = 0 then ⟨[], some (-1)⟩
  else
    let g := r.globals
    if !connect_ok then
      ⟨[DeviceCall.mkInterface g.port g.baud, DeviceCall.connect], some (-1)⟩
    else
      ⟨[DeviceCall.mkInterface g.port g.baud, DeviceCall.connect]
         ++ settings_calls g ++ autostart_calls g, none⟩

/-- The `ROS_ERROR` message for the first required explicit-settings field
missing from the parameter server, in the source's check order
(lines 176-205); `none` when all six are present. -/
def firstMissingMsg (nh : NodeHandle) : Option String :=
  if nh.high_voltage = none then some hvMsg
  else if nh.gain = none then some gainMsg
  else if nh.threshold = none then some thresholdMsg
  else if nh.shaping_time = none then some shapingMsg
  else if nh.input_and_polarity = none then some inputMsg
  else if nh.ramping_time = none then some rampMsg
  else none

/-- A parameter server with every key absent except
`load_previous_settings = false`. -/
def nhAllAbsent : NodeHandle :=
  ⟨some false, none, none, none, none, none, none, none, none, none, none, none⟩

/-! ## Basic facts about the lookup tables -/

/-- `ratQuarter` is the rational value of the literal `0.25`. -/
theorem ratQuarter_eq : ratQuarter = 0.25 := by
  rw [ratQuarter, Rat.mk'_eq_divInt, Rat.divInt_eq_div]; norm_num

/-- `ratHalf` is the rational value of the literal `0.5`. -/
theorem ratHalf_eq : ratHalf = 0.5 := by
  rw [ratHalf, Rat.mk'_eq_divInt, Rat.divInt_eq_div]; norm_num

theorem map_find_shape_quarter :
    map_find shape_map 0.25 = some ursa.shaping_time.TIME0_25uS := by
  rw [← ratQuarter_eq]; rfl

theorem map_find_shape_half :
    map_find shape_map 0.5 = some ursa.shaping_time.TIME0_5uS := by
  rw [← ratHalf_eq]; rfl

/-- A key different from every key of an association list is not found. -/
theorem map_find_eq_none {K V : Type} [DecidableEq K]
    (m : List (K × V)) (k : K) (h : ∀ p ∈ m, k ≠ p.1) :
    map_find m k = none := by
  induction m with
  | nil => rfl
  | cons p rest ih =>
    obtain ⟨a, b⟩ := p
    rw [map_find, if_neg (h ⟨a, b⟩ (by simp))]
    exact ih fun q hq => h q (by simp [hq])

/-- The globals after the six successful `nh.getParam` reads of
`get_params` (lines 176-205), before the table lookups. -/
def globals_after_reads (g : Globals) (hv : Int) (gv : Rat) (th : Int)
    (st : Rat) (ip : String) (rp : Int) : Globals :=
  { g with
    load_prev := false
    HV := hv
    gain := gv
    threshold := th
    shaping_time := st
    input_polarity := ip
    ramp := rp }

/-- Unfolding of `get_params` when `load_previous_settings` resolves to
`false` and all six required parameters are present: the outcome is
decided by the two table lookups alone. -/
theorem get_params_all_present (g : Globals) (nh : NodeHandle)
    (hv th rp : Int) (gv st : Rat) (ip : String)
    (h0 : nh.load_previous_settings.getD false = false)
    (h1 : nh.high_voltage = some hv) (h2 : nh.gain = some gv)
    (h3 : nh.threshold = some th) (h4 : nh.shaping_time = some st)
    (h5 : nh.input_and_polarity = some ip) (h6 : nh.ramping_time = some rp) :
    get_params g nh =
      match map_find shape_map st with
      | none =>
        ⟨-1, globals_after_reads g hv gv th st ip rp, [shapingInvalidMsg]⟩
      | some rst =>
        match map_find input_map ip with
        | none =>
          ⟨-1, globals_after_reads g hv gv th st ip rp, [inputInvalidMsg]⟩
        | some ri =>
          set_common_params
            { globals_after_reads g hv gv th st ip rp with
              real_shaping_time := some rst
              real_input := some ri } nh := by
  unfold get_params
  rw [h0, h1, h2, h3, h4, h5, h6]
  simp only [Bool.not_false, if_true, globals_after_reads]

/-- A rational outside the eight table keys is not found in `shape_map`. -/
theorem map_find_shape_eq_none (t : Rat)
    (h : t ∉ ([0.25, 0.5, 1, 2, 4, 6, 8, 10] : List Rat)) :
    map_find shape_map t = none := by
  simp only [List.mem_cons, List.not_mem_nil, or_false, not_or] at h
  obtain ⟨n1, n2, n3, n4, n5, n6, n7, n8⟩ := h
  apply map_find_eq_none
  intro p hp
  simp only [shape_map, List.mem_cons, List.not_mem_nil, or_false] at hp
  rcases hp with h | h | h | h | h | h | h | h <;> subst h <;>
    simp only [ratQuarter_eq, ratHalf_eq] <;> assumption

/-- Claim C5: for every shaping-time value in {0.25, 0.5, 1, 2, 4, 6, 8,
10}, `get_params` with all other required fields present and a valid
input-polarity label succeeds (`ret = 1`) and assigns the corresponding
fixed device code to `real_shaping_time`, by exact rational equality; for
every value outside that set it fails (`ret = -1`) logging the
invalid-shaping-time error. -/
theorem c5_shaping_time_table (g : Globals) (nh : NodeHandle) (t : Rat)
    (h0 : nh.load_previous_settings.getD false = false)
    (h1 : nh.high_voltage.isSome = true) (h2 : nh.gain.isSome = true)
    (h3 : nh.threshold.isSome = true) (h4 : nh.shaping_time = some t)
    (h5 : ∃ ip, nh.input_and_polarity = some ip ∧
          (map_find input_map ip).isSome = true)
    (h6 : nh.ramping_time.isSome = true) :
    ((t = 0.25 → (get_params g nh).ret = 1 ∧
        (get_params g nh).globals.real_shaping_time = some ursa.shaping_time.TIME0_25uS) ∧
     (t = 0.5 → (get_params g nh).ret = 1 ∧
        (get_params g nh).globals.real_shaping_time = some ursa.shaping_time.TIME0_5uS) ∧
     (t = 1 → (get_params g nh).ret = 1 ∧
        (get_params g nh).globals.real_shaping_time = some ursa.shaping_time.TIME1uS) ∧
     (t = 2 → (get_params g nh).ret = 1 ∧
        (get_params g nh).globals.real_shaping_time = some ursa.shaping_time.TIME2uS) ∧
     (t = 4 → (get_params g nh).ret = 1 ∧
        (get_params g nh).globals.real_shaping_time = some ursa.shaping_time.TIME4uS) ∧
     (t = 6 → (get_params g nh).ret = 1 ∧
        (get_params g nh).globals.real_shaping_time = some ursa.shaping_time.TIME6uS) ∧
     (t = 8 → (get_params g nh).ret = 1 ∧
        (get_params g nh).globals.real_shaping_time = some ursa.shaping_time.TIME8uS) ∧
     (t = 10 → (get_params g nh).ret = 1 ∧
        (get_params g nh).globals.real_shaping_time = some ursa.shaping_time.TIME10uS)) ∧
    (t ∉ ([0.25, 0.5, 1, 2, 4, 6, 8, 10] : List Rat) →
      (get_params g nh).ret = -1 ∧
      (get_params g nh).logs = [shapingInvalidMsg]) := by
  obtain ⟨hv, hhv⟩ := Option.isSome_iff_exists.mp h1
  obtain ⟨gv, hgv⟩ := Option.isSome_iff_exists.mp h2
  obtain ⟨th, hth⟩ := Option.isSome_iff_exists.mp h3
  obtain ⟨ip, hip, hipv⟩ := h5
  obtain ⟨ri, hri⟩ := Option.isSome_iff_exists.mp hipv
  obtain ⟨rp, hrp⟩ := Option.isSome_iff_exists.mp h6
  have key := get_params_all_present g nh hv th rp gv t ip h0 hhv hgv hth h4 hip hrp
  rw [hri] at key
  constructor
  · refine ⟨?_, ?_, ?_, ?_, ?_, ?_, ?_, ?_⟩ <;> intro ht <;> subst ht
    · rw [map_find_shape_quarter] at key
      rw [key]; exact ⟨rfl, rfl⟩
    · rw [map_find_shape_half] at key
      rw [key]; exact ⟨rfl, rfl⟩
    · rw [show map_find shape_map 1 = some ursa.shaping_time.TIME1uS from rfl] at key
      rw [key]; exact ⟨rfl, rfl⟩
    · rw [show map_find shape_map 2 = some ursa.shaping_time.TIME2uS from rfl] at key
      rw [key]; exact ⟨rfl, rfl⟩
    · rw [show map_find shape_map 4 = some ursa.shaping_time.TIME4uS from rfl] at key
      rw [key]; exact ⟨rfl, rfl⟩
    · rw [show map_find shape_map 6 = some ursa.shaping_time.TIME6uS from rfl] at key
      rw [key]; exact ⟨rfl, rfl⟩
    · rw [show map_find shape_map 8 = some ursa.shaping_time.TIME8uS from rfl] at key
      rw [key]; exact ⟨rfl, rfl⟩
    · rw [show map_find shape_map 10 = some ursa.shaping_time.TIME10uS from rfl] at key
      rw [key]; exact ⟨rfl, rfl⟩
  · intro hmem
    rw [map_find_shape_eq_none t hmem] at key
    rw [key]; exact ⟨rfl, rfl⟩

/-- A parameter server carrying a complete, valid explicit configuration
with `shaping_time = 2`. -/
def nhC5 : NodeHandle :=
  ⟨some false, some 500, some 2, some 10, some 2, some "input1_negative",
   some 6, none, none, none, none, none⟩

/-- Witness for `c5_shaping_time_table` at `t = 2`. -/
theorem c5_shaping_time_table_witness :
    (get_params initGlobals nhC5).ret = 1 ∧
    (get_params initGlobals nhC5).globals.real_shaping_time =
      some ursa.shaping_time.TIME2uS := by
  have h := c5_shaping_time_table initGlobals nhC5 2 rfl rfl rfl rfl rfl
    ⟨"input1_negative", rfl, rfl⟩ rfl
  exact h.1.2.2.2.1 rfl

/-- A string outside the five table labels is not found in `input_map`. -/
theorem map_find_input_eq_none (s : String)
    (h : s ∉ (["input1_negative", "input1_positive", "input2_negative",
               "input2_positive", "shaped_input"] : List String)) :
    map_find input_map s = none := by
  simp only [List.mem_cons, List.not_mem_nil, or_false, not_or] at h
  obtain ⟨n1, n2, n3, n4, n5⟩ := h
  apply map_find_eq_none
  intro p hp
  simp only [input_map, List.mem_cons, List.not_mem_nil, or_false] at hp
  rcases hp with h | h | h | h | h <;> subst h <;> assumption

/-- Claim C6: for every input-polarity label in {input1_negative,
input1_positive, input2_negative, input2_positive, shaped_input},
`get_params` with all other required fields present and a valid shaping
time succeeds (`ret = 1`) and assigns the table's device code to
`real_input`, by exact case-sensitive string equality; for every other
string it fails (`ret = -1`) logging the invalid-input-polarity error. -/
theorem c6_input_polarity_table (g : Globals) (nh : NodeHandle) (s : String)
    (h0 : nh.load_previous_settings.getD false = false)
    (h1 : nh.high_voltage.isSome = true) (h2 : nh.gain.isSome = true)
    (h3 : nh.threshold.isSome = true)
    (h4 : ∃ t, nh.shaping_time = some t ∧
          (map_find shape_map t).isSome = true)
    (h5 : nh.input_and_polarity = some s)
    (h6 : nh.ramping_time.isSome = true) :
    ((s = "input1_negative" → (get_params g nh).ret = 1 ∧
        (get_params g nh).globals.real_input = some ursa.inputs.INPUT1NEG) ∧
     (s = "input1_positive" → (get_params g nh).ret = 1 ∧
        (get_params g nh).globals.real_input = some ursa.inputs.INPUT1POS) ∧
     (s = "input2_negative" → (get_params g nh).ret = 1 ∧
        (get_params g nh).globals.real_input = some ursa.inputs.INPUT2NEG) ∧
     (s = "input2_positive" → (get_params g nh).ret = 1 ∧
        (get_params g nh).globals.real_input = some ursa.inputs.INPUT1POS) ∧
     (s = "shaped_input" → (get_params g nh).ret = 1 ∧
        (get_params g nh).globals.real_input = some ursa.inputs.INPUTXPOS)) ∧
    (s ∉ (["input1_negative", "input1_positive", "input2_negative",
           "input2_positive", "shaped_input"] : List String) →
      (get_params g nh).ret = -1 ∧
      (get_params g nh).logs = [inputInvalidMsg]) := by
  obtain ⟨hv, hhv⟩ := Option.isSome_iff_exists.mp h1
  obtain ⟨gv, hgv⟩ := Option.isSome_iff_exists.mp h2
  obtain ⟨th, hth⟩ := Option.isSome_iff_exists.mp h3
  obtain ⟨t, hst, hstv⟩ := h4
  obtain ⟨c, hc⟩ := Option.isSome_iff_exists.mp hstv
  obtain ⟨rp, hrp⟩ := Option.isSome_iff_exists.mp h6
  have key := get_params_all_present g nh hv th rp gv t s h0 hhv hgv hth hst h5 hrp
  rw [hc] at key
  constructor
  · refine ⟨?_, ?_, ?_, ?_, ?_⟩ <;> intro hs <;> subst hs <;>
      rw [key] <;> exact ⟨rfl, rfl⟩
  · intro hmem
    rw [map_find_input_eq_none s hmem] at key
    rw [key]; exact ⟨rfl, rfl⟩

/-- A parameter server carrying a complete, valid explicit configuration
with `input_and_polarity = "shaped_input"`. -/
def nhC6 : NodeHandle :=
  ⟨some false, some 500, some 2, some 10, some 1, some "shaped_input",
   some 6, none, none, none, none, none⟩

/-- Witness for `c6_input_polarity_table` at the label `shaped_input`. -/
theorem c6_input_polarity_table_witness :
    (get_params initGlobals nhC6).ret = 1 ∧
    (get_params initGlobals nhC6).globals.real_input =
      some ursa.inputs.INPUTXPOS := by
  have h := c6_input_polarity_table initGlobals nhC6 "shaped_input" rfl rfl rfl rfl
    ⟨1, rfl, rfl⟩ rfl rfl
  exact h.1.2.2.2.2 rfl

/-- Claim C7: two parameter servers that differ only in the
input-polarity label, one using `input1_positive` and the other
`input2_positive`, both resolve successfully and produce the identical
device code `INPUT1POS`. -/
theorem c7_input_positive_duplicate (g : Globals) (nh : NodeHandle)
    (h0 : nh.load_previous_settings.getD false = false)
    (h1 : nh.high_voltage.isSome = true) (h2 : nh.gain.isSome = true)
    (h3 : nh.threshold.isSome = true)
    (h4 : ∃ t, nh.shaping_time = some t ∧
          (map_find shape_map t).isSome = true)
    (h6 : nh.ramping_time.isSome = true) :
    (get_params g { nh with input_and_polarity := some "input1_positive" }).ret = 1 ∧
    (get_params g { nh with input_and_polarity := some "input2_positive" }).ret = 1 ∧
    (get_params g { nh with input_and_polarity := some "input1_positive" }).globals.real_input =
      (get_params g { nh with input_and_polarity := some "input2_positive" }).globals.real_input ∧
    (get_params g { nh with input_and_polarity := some "input1_positive" }).globals.real_input =
      some ursa.inputs.INPUT1POS := by
  obtain ⟨hv, hhv⟩ := Option.isSome_iff_exists.mp h1
  obtain ⟨gv, hgv⟩ := Option.isSome_iff_exists.mp h2
  obtain ⟨th, hth⟩ := Option.isSome_iff_exists.mp h3
  obtain ⟨t, hst, hstv⟩ := h4
  obtain ⟨c, hc⟩ := Option.isSome_iff_exists.mp hstv
  obtain ⟨rp, hrp⟩ := Option.isSome_iff_exists.mp h6
  have k1 := get_params_all_present g
    { nh with input_and_polarity := some "input1_positive" }
    hv th rp gv t "input1_positive" h0 hhv hgv hth hst rfl hrp
  have k2 := get_params_all_present g
    { nh with input_and_polarity := some "input2_positive" }
    hv th rp gv t "input2_positive" h0 hhv hgv hth hst rfl hrp
  rw [hc] at k1 k2
  rw [k1, k2]
  exact ⟨rfl, rfl, rfl, rfl⟩

/-- A parameter server carrying a complete, valid explicit configuration
except for the input-polarity label, which `c7_input_positive_duplicate`
fills in both ways. -/
def nhC7 : NodeHandle :=
  ⟨some false, some 500, some 2, some 10, some 4, none,
   some 6, none, none, none, none, none⟩

/-- Witness for `c7_input_positive_duplicate` at a concrete
configuration. -/
theorem c7_input_positive_duplicate_witness :
    (get_params initGlobals
      { nhC7 with input_and_polarity := some "input1_positive" }).ret = 1 ∧
    (get_params initGlobals
      { nhC7 with input_and_polarity := some "input2_positive" }).ret = 1 ∧
    (get_params initGlobals
      { nhC7 with input_and_polarity := some "input1_positive" }).globals.real_input =
      (get_params initGlobals
        { nhC7 with input_and_polarity := some "input2_positive" }).globals.real_input ∧
    (get_params initGlobals
      { nhC7 with input_and_polarity := some "input1_positive" }).globals.real_input =
      some ursa.inputs.INPUT1POS :=
  c7_input_positive_duplicate initGlobals nhC7 rfl rfl rfl rfl ⟨4, rfl, rfl⟩ rfl

/-- Claim C3: when `load_previous_settings` resolves to false and at least
one of the six required fields is absent, `get_params` fails with `-1`
logging exactly one error message, the one of the first missing field in
the fixed source order high_voltage, gain, threshold, shaping_time,
input_and_polarity, ramping_time, whatever the later fields hold; in
particular an absent `high_voltage` yields the high-voltage error alone
regardless of every other field. -/
theorem c3_first_missing_field_reported (g : Globals) (nh : NodeHandle) (m : String)
    (h0 : nh.load_previous_settings.getD false = false)
    (hm : firstMissingMsg nh = some m) :
    (get_params g nh).ret = -1 ∧ (get_params g nh).logs = [m] := by
  unfold firstMissingMsg at hm
  split_ifs at hm with e1 e2 e3 e4 e5 e6
  · cases hm
    refine ⟨?_, ?_⟩ <;> simp [get_params, h0, e1]
  · obtain ⟨hv, h1⟩ := Option.ne_none_iff_exists'.mp e1
    cases hm
    refine ⟨?_, ?_⟩ <;> simp [get_params, h0, h1, e2]
  · obtain ⟨hv, h1⟩ := Option.ne_none_iff_exists'.mp e1
    obtain ⟨gv, h2⟩ := Option.ne_none_iff_exists'.mp e2
    cases hm
    refine ⟨?_, ?_⟩ <;> simp [get_params, h0, h1, h2, e3]
  · obtain ⟨hv, h1⟩ := Option.ne_none_iff_exists'.mp e1
    obtain ⟨gv, h2⟩ := Option.ne_none_iff_exists'.mp e2
    obtain ⟨th, h3⟩ := Option.ne_none_iff_exists'.mp e3
    cases hm
    refine ⟨?_, ?_⟩ <;> simp [get_params, h0, h1, h2, h3, e4]
  · obtain ⟨hv, h1⟩ := Option.ne_none_iff_exists'.mp e1
    obtain ⟨gv, h2⟩ := Option.ne_none_iff_exists'.mp e2
    obtain ⟨th, h3⟩ := Option.ne_none_iff_exists'.mp e3
    obtain ⟨st, h4⟩ := Option.ne_none_iff_exists'.mp e4
    cases hm
    refine ⟨?_, ?_⟩ <;> simp [get_params, h0, h1, h2, h3, h4, e5]
  · obtain ⟨hv, h1⟩ := Option.ne_none_iff_exists'.mp e1
    obtain ⟨gv, h2⟩ := Option.ne_none_iff_exists'.mp e2
    obtain ⟨th, h3⟩ := Option.ne_none_iff_exists'.mp e3
    obtain ⟨st, h4⟩ := Option.ne_none_iff_exists'.mp e4
    obtain ⟨ip, h5⟩ := Option.ne_none_iff_exists'.mp e5
    cases hm
    refine ⟨?_, ?_⟩ <;> simp [get_params, h0, h1, h2, h3, h4, h5, e6]

/-- Witness for `c3_first_missing_field_reported`: with every parameter
absent except `load_previous_settings = false`, the single error is the
high-voltage one. -/
theorem c3_first_missing_field_reported_witness :
    (get_params initGlobals nhAllAbsent).ret = -1 ∧
    (get_params initGlobals nhAllAbsent).logs = [hvMsg] :=
  c3_first_missing_field_reported initGlobals nhAllAbsent hvMsg rfl rfl

/-- Claim C2: on every input `get_params` returns `-1` (each
validation-failure path) or `1` (the success path); it never returns `0`,
so its return value is non-zero on every path, including all failure
paths tested by the guard `if (!get_params(nh))` in `main`. -/
theorem c2_get_params_never_zero (g : Globals) (nh : NodeHandle) :
    ((get_params g nh).ret = -1 ∨ (get_params g nh).ret = 1) ∧
    (get_params g nh).ret ≠ 0 := by
  have h : (get_params g nh).ret = -1 ∨ (get_params g nh).ret = 1 := by
    unfold get_params
    dsimp only
    split
    · split
      · left; rfl
      · split
        · left; rfl
        · split
          · left; rfl
          · split
            · left; rfl
            · split
              · left; rfl
              · split
                · left; rfl
                · split
                  · left; rfl
                  · split
                    · left; rfl
                    · right; rfl
    · right; rfl
  refine ⟨h, ?_⟩
  rcases h with h | h <;> rw [h] <;> decide

/-- A parameter server with every key absent except
`load_previous_settings = true`. -/
def nhEmptyLoadPrev : NodeHandle :=
  ⟨some true, none, none, none, none, none, none, none, none, none, none, none⟩

/-- Claim C8: when `load_previous_settings` is true, `get_params`
succeeds whatever the six explicit-settings parameters hold (they are
never read: the device-setting globals keep their prior values, no table
lookup is performed, no error is logged), `load_prev` is set true, and
port, baud, mode, immediate-start and frame id are still resolved from
their defaults or overrides. -/
theorem c8_load_previous_skips_validation (g : Globals) (nh : NodeHandle)
    (h : nh.load_previous_settings = some true) :
    get_params g nh =
      ⟨1,
       { g with
         load_prev := true
         port := nh.port.getD "/dev/ttyUSB0"
         baud := nh.baud.getD 115200
         GMmode := nh.use_GM_mode.getD false
         imeadiate := nh.imeadiate_mode.getD false
         detector_frame := nh.detector_frame.getD "rad_link" },
       []⟩ := by
  unfold get_params
  rw [h]
  rfl

/-- Witness for `c8_load_previous_skips_validation` on an otherwise-empty
parameter server. -/
theorem c8_load_previous_skips_validation_witness :
    get_params initGlobals nhEmptyLoadPrev =
      ⟨1,
       { initGlobals with
         load_prev := true
         port := "/dev/ttyUSB0"
         baud := 115200
         GMmode := false
         imeadiate := false
         detector_frame := "rad_link" },
       []⟩ :=
  c8_load_previous_skips_validation initGlobals nhEmptyLoadPrev rfl

/-- Claim C9: on an otherwise-empty parameter server with
`load_previous_settings = true`, resolution succeeds and the five
unvalidated settings silently take their defaults: port `/dev/ttyUSB0`,
baud 115200, spectral mode (`GMmode = false`), no auto-start
(`imeadiate = false`), frame id `rad_link`, with no error logged. -/
theorem c9_defaults :
    (get_params initGlobals nhEmptyLoadPrev).ret = 1 ∧
    (get_params initGlobals nhEmptyLoadPrev).globals.port = "/dev/ttyUSB0" ∧
    (get_params initGlobals nhEmptyLoadPrev).globals.baud = 115200 ∧
    (get_params initGlobals nhEmptyLoadPrev).globals.GMmode = false ∧
    (get_params initGlobals nhEmptyLoadPrev).globals.imeadiate = false ∧
    (get_params initGlobals nhEmptyLoadPrev).globals.detector_frame = "rad_link" ∧
    (get_params initGlobals nhEmptyLoadPrev).logs = [] :=
  ⟨rfl, rfl, rfl, rfl, rfl, rfl, rfl⟩

/-- Claim C1 (refuted by the code): with `high_voltage` absent,
`get_params` fails returning `-1`, yet `main` still constructs the
`ursa::Interface` and calls `connect()` and does not exit: the guard
`if (!get_params(nh))` in C only catches a return of `0`, which
`get_params` never produces, so the documented fail-fast never fires. -/
theorem c1_connect_attempted_after_failed_params :
    (get_params initGlobals nhAllAbsent).ret = -1 ∧
    (get_params initGlobals nhAllAbsent).logs = [hvMsg] ∧
    (main_run nhAllAbsent true).exitCode = none ∧
    DeviceCall.mkInterface "" 0 ∈ (main_run nhAllAbsent true).calls ∧
    DeviceCall.connect ∈ (main_run nhAllAbsent true).calls := by
  refine ⟨rfl, rfl, rfl, ?_, ?_⟩ <;>
    · show _ ∈ (main_run nhAllAbsent true).calls
      rw [show (main_run nhAllAbsent true).calls =
        [DeviceCall.mkInterface "" 0, DeviceCall.connect,
         DeviceCall.setGain 0, DeviceCall.setThresholdOffset 0,
         DeviceCall.setShapingTime none, DeviceCall.setInput none,
         DeviceCall.setRamp 6, DeviceCall.setVoltage 0] from rfl]
      simp

/-- A parameter server where `high_voltage` is present (5) but `gain` is
absent: `get_params` mutates the `HV` global and then fails. -/
def nhPartialCfg : NodeHandle :=
  ⟨some false, some 5, none, none, none, none, none, none, none, none, none, none⟩

/-- Claim C4 (refuted by the code): resolution is not atomic in effect.
On a configuration whose `gain` is missing, `get_params` fails with `-1`
leaving the globals partially populated (`HV` updated to 5,
`real_shaping_time` never assigned), yet `main` still contacts the device
and applies the partially-populated settings, including the assigned
`setVoltage 5` and the never-assigned shaping time. -/
theorem c4_partial_resolution_reaches_device :
    (get_params initGlobals nhPartialCfg).ret = -1 ∧
    (get_params initGlobals nhPartialCfg).globals.HV = 5 ∧
    (get_params initGlobals nhPartialCfg).globals.real_shaping_time = none ∧
    (main_run nhPartialCfg true).exitCode = none ∧
    DeviceCall.connect ∈ (main_run nhPartialCfg true).calls ∧
    DeviceCall.setVoltage 5 ∈ (main_run nhPartialCfg true).calls ∧
    DeviceCall.setShapingTime none ∈ (main_run nhPartialCfg true).calls := by
  refine ⟨rfl, rfl, rfl, rfl, ?_, ?_, ?_⟩ <;>
    · show _ ∈ (main_run nhPartialCfg true).calls
      rw [show (main_run nhPartialCfg true).calls =
        [DeviceCall.mkInterface "" 0, DeviceCall.connect,
         DeviceCall.setGain 0, DeviceCall.setThresholdOffset 0,
         DeviceCall.setShapingTime none, DeviceCall.setInput none,
         DeviceCall.setRamp 6, DeviceCall.setVoltage 5] from rfl]
      simp

/-- Claim C10: after a successful `get_params` and a successful
connection, `main` applies the six device settings via exactly the call
sequence setGain, setThresholdOffset, setShapingTime, setInput, setRamp,
setVoltage in that order when `load_prev` is false, and makes the single
call `loadPrevSettings` (none of the six setters) when `load_prev` is
true; the only calls before them are the interface construction and
`connect()`, and the only ones after are the optional auto-start. -/
theorem c10_settings_call_sequence (nh : NodeHandle)
    (h : (get_params initGlobals nh).ret = 1) :
    ((get_params initGlobals nh).globals.load_prev = false →
      (main_run nh true).calls =
        [DeviceCall.mkInterface (get_params initGlobals nh).globals.port
           (get_params initGlobals nh).globals.baud,
         DeviceCall.connect,
         DeviceCall.setGain (get_params initGlobals nh).globals.gain,
         DeviceCall.setThresholdOffset (get_params initGlobals nh).globals.threshold,
         DeviceCall.setShapingTime (get_params initGlobals nh).globals.real_shaping_time,
         DeviceCall.setInput (get_params initGlobals nh).globals.real_input,
         DeviceCall.setRamp (get_params initGlobals nh).globals.ramp,
         DeviceCall.setVoltage (get_params initGlobals nh).globals.HV]
          ++ autostart_calls (get_params initGlobals nh).globals) ∧
    ((get_params initGlobals nh).globals.load_prev = true →
      (main_run nh true).calls =
        [DeviceCall.mkInterface (get_params initGlobals nh).globals.port
           (get_params initGlobals nh).globals.baud,
         DeviceCall.connect,
         DeviceCall.loadPrevSettings]
          ++ autostart_calls (get_params initGlobals nh).globals) := by
  have hne : ¬((get_params initGlobals nh).ret = 0) := by rw [h]; decide
  constructor <;> intro hlp <;>
    simp [main_run, hne, settings_calls, hlp]

/-- Witness for `c10_settings_call_sequence` on the complete explicit
configuration `nhC5`. -/
theorem c10_settings_call_sequence_witness :
    (main_run nhC5 true).calls =
      [DeviceCall.mkInterface (get_params initGlobals nhC5).globals.port
         (get_params initGlobals nhC5).globals.baud,
       DeviceCall.connect,
       DeviceCall.setGain (get_params initGlobals nhC5).globals.gain,
       DeviceCall.setThresholdOffset (get_params initGlobals nhC5).globals.threshold,
       DeviceCall.setShapingTime (get_params initGlobals nhC5).globals.real_shaping_time,
       DeviceCall.setInput (get_params initGlobals nhC5).globals.real_input,
       DeviceCall.setRamp (get_params initGlobals nhC5).globals.ramp,
       DeviceCall.setVoltage (get_params initGlobals nhC5).globals.HV]
        ++ autostart_calls (get_params initGlobals nhC5).globals :=
  (c10_settings_call_sequence nhC5 rfl).1 rfl
